import Mathlib

/-!
Shallow embedding of the pytket-service HTTP handlers in
`app/routes.py` (transpile_circuit, execute_circuit, get_result).

The repository code under verification is `app/routes.py`.  The helper
modules it imports (`app.tket_handler`, `app.implementation_handler`,
`app.result_model`) are collaborators that are not part of the source
tree given here; their behaviour is modelled as oracles (an environment
record of functions) or, where the claims need their data layout, from
the specification, as marked in the doc comments below.

Conventions:
  - Python exceptions raised by a call are modelled as tagged outcomes
    of the corresponding oracle.
  - An uncaught Python exception inside a Flask handler yields an HTTP
    500 response; this is the `unhandledError` constructor.
  - `abort(n)` yields the corresponding bare HTTP error response;
    note that `abort` raises a werkzeug `HTTPException`, which is a
    subclass of `Exception`, so an `abort(404)` executed inside a
    `try ... except Exception` block is caught by that handler.
-/

namespace PytketService

/-- Outcome of one call to `tket_transpile_circuit(circuit, ..., precompile_circuit=flag)`
(a collaborator in `app.tket_handler`, outside the given source tree):
either it returns a (possibly only partially lowered) circuit, or it
raises `UnsupportedGateException`, `TooManyQubitsException`, or some
other exception. -/
inductive AttemptResult (C : Type) where
  | ok (c : C)
  | unsupportedGate
  | tooManyQubits
  | otherError
deriving DecidableEq

/-- Observable events of one run of the `transpile_circuit` handler, in
order: credential setup (`setup_credentials`, routes.py line 49), the
implementation-loader call (line 53), each lowering attempt (line 73,
recording the circuit passed in and the `precompile_circuit` flag), and
the escalation step that sets the flag after an unsupported-gate
failure (lines 86-88). -/
inductive Event (C : Type) where
  | setupCredentials
  | loadImpl
  | attempt (c : C) (precompiled : Bool)
  | escalate
deriving DecidableEq

/-- Behaviour of the tket collaborators used inside the convergence
loop of `transpile_circuit` (routes.py lines 69-105): the
`is_tk_circuit` loop guard, the lowering attempt, and the backend
validity predicate `backend.valid_circuit` together with the metric
accessors `circuit.n_qubits` and `circuit.depth()`. -/
structure TketEnv (C : Type) where
  is_tk_circuit : C → Bool
  attempt : C → Bool → AttemptResult C
  valid_circuit : C → Bool
  n_qubits : C → Nat
  depth : C → Nat

/-- How the `while` loop of routes.py lines 69-100 finished:
`exited c` means the guard `not is_tk_circuit(circuit)` became false
with working circuit `c`; `brokeOut c` is the `break` taken when an
`UnsupportedGateException` arrives with the precompile flag already
set (line 91); `tooManyQubits` is the early `return` of line 96;
`internalError` is the `abort(500)` of line 100; `fuelOut` means the
loop did not finish within the given fuel (the Python loop would still
be running). -/
inductive LoopOutcome (C : Type) where
  | exited (c : C)
  | brokeOut (c : C)
  | tooManyQubits
  | internalError
  | fuelOut
deriving DecidableEq

/-- The convergence loop of `transpile_circuit` (routes.py lines 69-100),
with fuel to make it total.  State is the working circuit and the
`precompiled_circuit` flag (initially false, line 69).  On success the
working circuit is replaced by the attempt result; on an
unsupported-gate failure with the flag unset, the flag is set and the
loop continues with the *current* circuit unchanged (the `except`
branch does not reassign `circuit`); with the flag set it breaks; a
too-many-qubits failure and any other exception leave the loop at
once.  Returns the outcome and the trace of attempt/escalation events. -/
def convergenceLoop (env : TketEnv C) : Nat → C → Bool → LoopOutcome C × List (Event C)
  | 0, _, _ => (.fuelOut, [])
  | fuel + 1, c, precompiled =>
    if env.is_tk_circuit c then (.exited c, [])
    else
      match env.attempt c precompiled with
      | .ok c' =>
          ((convergenceLoop env fuel c' precompiled).1,
            .attempt c precompiled :: (convergenceLoop env fuel c' precompiled).2)
      | .unsupportedGate =>
          if precompiled then (.brokeOut c, [.attempt c precompiled])
          else
            ((convergenceLoop env fuel c true).1,
              .attempt c precompiled :: .escalate :: (convergenceLoop env fuel c true).2)
      | .tooManyQubits => (.tooManyQubits, [.attempt c precompiled])
      | .otherError => (.internalError, [.attempt c precompiled])

/-- Number of escalation events in a trace. -/
def escalations : List (Event C) → Nat
  | [] => 0
  | .escalate :: tr => escalations tr + 1
  | _ :: tr => escalations tr

/-- Number of lowering attempts made with the precompile flag set. -/
def preAttempts : List (Event C) → Nat
  | [] => 0
  | .attempt _ true :: tr => preAttempts tr + 1
  | _ :: tr => preAttempts tr

/-- The JSON body of a request to `/transpile` or `/execute`, as far as
routes.py reads it: each field is present or absent.  `jsonPresent`
models `request.json` being truthy (line 36).  The `input-params`
payload is never inspected by routes.py beyond being passed on, so it
is not modelled. -/
structure TranspileRequest where
  jsonPresent : Bool
  impl_url : Option String
  impl_data : Option String
  impl_language : Option String
  provider : Option String
  sdk : Option String
  qpu_name : Option String
deriving DecidableEq

/-- The guard of routes.py line 36 (also line 118): abort with 400
unless the body is JSON and has the keys impl-url and qpu-name.
No other key is checked there. -/
def check400 (req : TranspileRequest) : Bool :=
  !req.jsonPresent || req.impl_url.isNone || req.qpu_name.isNone

/-- True when the list of characters starts with the three characters
dot, p, y. -/
def startsWithDotPy : List Char → Bool
  | '.' :: 'p' :: 'y' :: _ => true
  | _ => false

/-- True when the substring ".py" occurs somewhere in the list. -/
def containsDotPy : List Char → Bool
  | [] => false
  | c :: rest => startsWithDotPy (c :: rest) || containsDotPy rest

/-- Whether the Python regular expression match of routes.py line 46,
`re.match(".*/(?P<file>.*\\.py)", impl_url)`, succeeds.  `re.match`
anchors at the start of the string only, and both `.*` are
unconstrained, so the pattern matches exactly when some prefix of the
string has the shape A ++ "/" ++ B ++ ".py": that is, when an
occurrence of ".py" starts strictly after some occurrence of "/". -/
def matchesShortName : List Char → Bool
  | [] => false
  | '/' :: rest => containsDotPy rest
  | _ :: rest => matchesShortName rest

/-- Regex success of routes.py line 46 on a string. -/
def regexMatchesImplUrl (s : String) : Bool :=
  matchesShortName s.data

/-- Split a character list at every slash, keeping empty segments. -/
def splitSlash : List Char → List (List Char)
  | [] => [[]]
  | '/' :: rest => [] :: splitSlash rest
  | c :: rest =>
    match splitSlash rest with
    | [] => [[c]]
    | seg :: segs => (c :: seg) :: segs

/-- True when the list of characters ends with the three characters
dot, p, y. -/
def endsWithDotPy (l : List Char) : Bool :=
  match l.reverse with
  | 'y' :: 'p' :: '.' :: _ => true
  | _ => false

/-- Stated from the words of the claim about the short-name regex, for
comparison with `regexMatchesImplUrl`: whether the URL contains a
slash-separated segment that ends in ".py". -/
def hasSegmentEndingPy (s : String) : Bool :=
  (splitSlash s.data).any endsWithDotPy

/-- Response body of the transpile endpoint on HTTP 200: either the
metrics object of line 112 or an error object (lines 60 and 96). -/
inductive RespBody where
  | metrics (depth width : Nat)
  | errorMsg (s : String)
deriving DecidableEq

/-- Response of the transpile endpoint.  `badRequest`, `notFound` and
`serverError` are the `abort(400/404/500)` calls; `unhandledError` is
an uncaught Python exception (Flask then answers 500); `diverges`
stands for the Python loop never terminating (no response is sent). -/
inductive TranspileResponse where
  | badRequest
  | ok200 (body : RespBody)
  | notFound
  | serverError
  | unhandledError (msg : String)
  | diverges
deriving DecidableEq

/-- Outcome of `implementation_handler.prepare_code_from_url` (routes.py
line 53; the handler itself is a collaborator outside the given source
tree): a circuit, a falsy result, or a raised exception with message. -/
inductive LoadResult (C : Type) where
  | ok (c : C)
  | noCircuit
  | raises (msg : String)
deriving DecidableEq

/-- Per-request behaviour of all collaborators of `transpile_circuit`:
the tket oracles plus the loader outcome and whether
`get_backend(provider, qpu_name)` (line 63) returns a backend. -/
structure ServiceEnv (C : Type) extends TketEnv C where
  loadImpl : LoadResult C
  backendFound : Bool

/-- What `str(e)` yields for the werkzeug NotFound exception raised by
`abort(404)` on routes.py line 56.  That abort sits inside the
`try ... except Exception` block of lines 52-60, so it is caught by the
generic handler, which returns HTTP 200 with this text as the error
field. -/
def notFoundErrorText : String :=
  "404 Not Found: The requested URL was not found on the server. If you entered the URL manually please check your spelling and try again."

/-- Message of the AttributeError raised on routes.py line 46 when the
regex match returns None and `.group` is called on it. -/
def attrErrorText : String :=
  "AttributeError: NoneType object has no attribute group"

/-- Translation of the loop outcome into the response, routes.py lines
93-112: the early return for too many qubits, `abort(500)` for an
unexpected exception, and otherwise the final guard
`if not backend.valid_circuit(circuit): abort(500)` (lines 102-105)
followed by the metrics response (lines 107-112).  Both a natural loop
exit and the `break` of line 91 fall through to the final guard. -/
def finishLoop (env : ServiceEnv C) (r : LoopOutcome C × List (Event C)) :
    TranspileResponse × List (Event C) :=
  let evs := Event.setupCredentials :: Event.loadImpl :: r.2
  match r.1 with
  | .tooManyQubits => (.ok200 (.errorMsg "too many qubits required"), evs)
  | .internalError => (.serverError, evs)
  | .fuelOut => (.diverges, evs)
  | .exited c =>
      if env.valid_circuit c then
        (.ok200 (.metrics (env.depth c) (env.n_qubits c)), evs)
      else (.serverError, evs)
  | .brokeOut c =>
      if env.valid_circuit c then
        (.ok200 (.metrics (env.depth c) (env.n_qubits c)), evs)
      else (.serverError, evs)

/-- The `transpile_circuit` handler, routes.py lines 31-112, in source
order: the field guard of line 36; the unguarded dictionary reads of
provider (line 40) and sdk (line 41), which raise KeyError when the
key is absent; the short-name regex of line 46, which raises
AttributeError when it does not match; `setup_credentials` (line 49,
modelled as an event only); the loader call with its three outcomes
(lines 52-60, where both a falsy circuit and a raised exception end as
HTTP 200 with an error body, because the `abort(404)` of line 56 is
itself caught by the `except Exception` of line 58); the backend
lookup (lines 63-67); then the convergence loop and its translation. -/
def transpile (env : ServiceEnv C) (fuel : Nat) (req : TranspileRequest) :
    TranspileResponse × List (Event C) :=
  if check400 req then (.badRequest, [])
  else
    match req.provider with
    | none => (.unhandledError "KeyError: provider", [])
    | some _ =>
      match req.sdk with
      | none => (.unhandledError "KeyError: sdk", [])
      | some _ =>
        match req.impl_url with
        | none => (.badRequest, [])
        | some url =>
          if regexMatchesImplUrl url then
            match env.loadImpl with
            | .raises msg =>
                (.ok200 (.errorMsg msg), [.setupCredentials, .loadImpl])
            | .noCircuit =>
                (.ok200 (.errorMsg notFoundErrorText), [.setupCredentials, .loadImpl])
            | .ok c =>
                if env.backendFound then
                  finishLoop env (convergenceLoop env.toTketEnv fuel c false)
                else (.notFound, [.setupCredentials, .loadImpl])
          else (.unhandledError attrErrorText, [])

/-- Modelled from the spec: the `Result` record of `app/result_model.py`
is not in the given source tree; spec section 3 fixes its layout as
id (string, primary key), complete (boolean, default false), result
(serialized payload, nullable until complete). -/
structure ResultRecord where
  id : String
  complete : Bool
  result : Option String
deriving DecidableEq

/-- The Result table, as the association of ids to records;
`Result.query.get(result_id)` (routes.py line 145) is lookup by
primary key and yields None when no record exists. -/
def findResult (store : List ResultRecord) (rid : String) : Option ResultRecord :=
  store.find? (fun r => r.id == rid)

/-- The arguments routes.py lines 128-129 pass to
`app.execute_queue.enqueue` for the deferred `app.tasks.execute` call. -/
structure Job where
  impl_url : String
  qpu_name : String
  provider : String
  sdk : String
  shots : Nat
deriving DecidableEq

/-- The shared state the `execute_circuit` handler mutates: the redis
queue of jobs (keyed by the generated job id) and the Result table. -/
structure ExecState where
  queue : List (String × Job)
  store : List ResultRecord
deriving DecidableEq

/-- Response of the `execute_circuit` handler: HTTP status, the
Location header (line 138), and the Location field of the JSON body
(line 136). -/
structure ExecResponse where
  status : Nat
  location : Option String
  bodyLocation : Option String
deriving DecidableEq

/-- The content location built on routes.py line 135. -/
def resultsPath (rid : String) : String :=
  "/pytket-service/api/v1.0/results/" ++ rid

/-- The `execute_circuit` handler, routes.py lines 115-139: the same
field guard as transpile (line 118), the same unguarded provider/sdk
reads (lines 121-122), then enqueue of the job under a fresh id
(modelled as the `newId` argument, standing for `job.get_id()`),
creation of a Result record for that id with the default field values
(complete false, result null), and the 202 response carrying the
results location in both header and body.  `shots` defaults to 1024 at
the call site (line 126). -/
def execute_circuit (st : ExecState) (req : TranspileRequest) (shots : Nat)
    (newId : String) : ExecResponse × ExecState :=
  if check400 req then (⟨400, none, none⟩, st)
  else
    match req.provider with
    | none => (⟨500, none, none⟩, st)
    | some p =>
      match req.sdk with
      | none => (⟨500, none, none⟩, st)
      | some s =>
        match req.impl_url, req.qpu_name with
        | some url, some qpu =>
            let job : Job := ⟨url, qpu, p, s, shots⟩
            let st' : ExecState :=
              ⟨st.queue ++ [(newId, job)], st.store ++ [⟨newId, false, none⟩]⟩
            (⟨202, some (resultsPath newId), some (resultsPath newId)⟩, st')
        | _, _ => (⟨400, none, none⟩, st)

/-- Response of the `get_result` handler: the complete payload of line
148, the incomplete form of line 150 (no result field), or an uncaught
exception (HTTP 500). -/
inductive ResultsResponse where
  | completeResp (id : String) (payload : String)
  | incompleteResp (id : String)
  | unhandledErr (msg : String)
deriving DecidableEq

/-- The `get_result` handler, routes.py lines 142-150.  When
`Result.query.get` yields None, line 146 evaluates `result.complete`
on None and raises AttributeError (HTTP 500).  When the record is
complete, line 147 runs `json.loads(result.result)`, which raises on a
null payload; otherwise the complete response carries the payload.  An
incomplete record answers with id and complete only. -/
def get_result (store : List ResultRecord) (rid : String) : ResultsResponse :=
  match findResult store rid with
  | none => .unhandledErr "AttributeError: NoneType object has no attribute complete"
  | some r =>
    if r.complete then
      match r.result with
      | none => .unhandledErr "TypeError: the JSON object must be str, not NoneType"
      | some payload => .completeResp r.id payload
    else .incompleteResp r.id

/-- The `get_result` handler as a state transformer over the Result
table, to make its frame explicit: the handler body (lines 142-150)
only queries and serializes; it contains no session.add, no commit and
no other write, so the table it leaves behind is the one it was given. -/
def get_result_handler (store : List ResultRecord) (rid : String) :
    ResultsResponse × List ResultRecord :=
  (get_result store rid, store)

/-!
Concrete instances (circuits are numbered: 0 is the freshly loaded
circuit, 2 and 3 are used as lowered forms) used to exercise the
handler model on closed inputs.
-/

/-- A lowering oracle whose every attempt yields the native circuit 2. -/
def attemptA (_c : Nat) (_precompiled : Bool) : AttemptResult Nat :=
  .ok 2

/-- A lowering oracle that first lowers circuit 0 partially to circuit
1, fails on circuit 1 with an unsupported gate unless the precompile
flag is set, and lowers circuit 1 to the native circuit 2 when it is. -/
def attemptB (c : Nat) (precompiled : Bool) : AttemptResult Nat :=
  if c = 0 then .ok 1
  else if precompiled then .ok 2 else .unsupportedGate

/-- A lowering oracle that always fails on circuit 1 with an
unsupported gate, and otherwise fails without the precompile flag but
yields the native circuit 2 with it. -/
def attemptC (c : Nat) (precompiled : Bool) : AttemptResult Nat :=
  if c = 1 then .unsupportedGate
  else if precompiled then .ok 2 else .unsupportedGate

/-- Tket oracles where circuit 2 is the native form and every attempt
converges at once. -/
def tketEnvA : TketEnv Nat :=
  ⟨fun c => c == 2, attemptA, fun c => c == 2, fun _ => 1, fun _ => 1⟩

/-- Tket oracles around `attemptB`. -/
def tketEnvB : TketEnv Nat :=
  ⟨fun c => c == 2, attemptB, fun c => c == 2, fun _ => 1, fun _ => 1⟩

/-- Tket oracles around `attemptC`. -/
def tketEnvC : TketEnv Nat :=
  ⟨fun c => c == 2, attemptC, fun c => c == 2, fun _ => 1, fun _ => 1⟩

/-- Tket oracles where every attempt fails for lack of qubits. -/
def tketEnvTMQ : TketEnv Nat :=
  ⟨fun c => c == 2, fun _ _ => .tooManyQubits, fun c => c == 2, fun _ => 1, fun _ => 1⟩

/-- Tket oracles where lowering converges to circuit 3 but the backend
validity predicate rejects every circuit. -/
def tketEnvInvalid : TketEnv Nat :=
  ⟨fun c => c == 3, fun _ _ => .ok 3, fun _ => false, fun _ => 1, fun _ => 1⟩

/-- Service collaborators: loader yields circuit 0, backend resolves. -/
def envA : ServiceEnv Nat :=
  { toTketEnv := tketEnvA, loadImpl := .ok 0, backendFound := true }

/-- Service collaborators around `tketEnvTMQ`. -/
def envTMQ : ServiceEnv Nat :=
  { toTketEnv := tketEnvTMQ, loadImpl := .ok 0, backendFound := true }

/-- Service collaborators around `tketEnvInvalid`. -/
def envInvalid : ServiceEnv Nat :=
  { toTketEnv := tketEnvInvalid, loadImpl := .ok 0, backendFound := true }

/-- Service collaborators whose loader raises an exception. -/
def envRaise : ServiceEnv Nat :=
  { toTketEnv := tketEnvA, loadImpl := .raises "connection error", backendFound := true }

/-- Service collaborators whose loader yields a falsy circuit. -/
def envNoCircuit : ServiceEnv Nat :=
  { toTketEnv := tketEnvA, loadImpl := .noCircuit, backendFound := true }

/-- Service collaborators where the (provider, qpu-name) pair resolves
to no backend. -/
def envNoBackend : ServiceEnv Nat :=
  { toTketEnv := tketEnvA, loadImpl := .ok 0, backendFound := false }

/-- A well-formed request carrying every field routes.py reads. -/
def reqOk : TranspileRequest :=
  ⟨true, some "https://example.com/data/hadamard.py", none, none,
    some "ibmq", some "pytket", some "ibmq_qasm_simulator"⟩

/-- A request that supplies the implementation inline through impl-data
together with impl-language, provider, sdk and qpu-name, but without
impl-url, as the repository test test_transpile_shor_santiago_file_pyquil
sends it. -/
def reqData : TranspileRequest :=
  ⟨true, none, some "aW1wbC1kYXRh", some "pyquil",
    some "ibmq", some "pytket", some "ibmq_santiago"⟩

/-- A request with impl-url and qpu-name but no sdk field. -/
def reqNoSdk : TranspileRequest :=
  ⟨true, some "https://example.com/data/hadamard.py", none, none,
    some "ibmq", none, some "ibmq_qasm_simulator"⟩

/-- A request with impl-url and qpu-name but no provider field. -/
def reqNoProvider : TranspileRequest :=
  ⟨true, some "https://example.com/data/hadamard.py", none, none,
    none, some "pytket", some "ibmq_qasm_simulator"⟩

/-- A request whose impl-url names a compiled python file: no
slash-separated segment ends in ".py", yet the regex of line 46
matches the prefix ending right after "code.py". -/
def reqPyc : TranspileRequest :=
  ⟨true, some "https://example.com/data/code.pyc", none, none,
    some "ibmq", some "pytket", some "ibmq_qasm_simulator"⟩

/-- A request whose impl-url has no slash at all, so the regex of line
46 cannot match. -/
def reqNoSlash : TranspileRequest :=
  ⟨true, some "hadamard.py", none, none,
    some "ibmq", some "pytket", some "ibmq_qasm_simulator"⟩

/-- A native circuit produces an empty loop trace: the guard is checked
before any attempt, so a circuit already in tk form is never lowered. -/
theorem trace_of_native (env : TketEnv C) (c : C) (h : env.is_tk_circuit c = true) :
    ∀ fuel precompiled, (convergenceLoop env fuel c precompiled).2 = [] := by
  intro fuel precompiled
  cases fuel <;> simp [convergenceLoop, h]

/-- Once the precompile flag is set it is never set again: a run
starting with the flag already true emits no escalation event. -/
theorem escalations_flag_set (env : TketEnv C) :
    ∀ fuel c, escalations (convergenceLoop env fuel c true).2 = 0 := by
  intro fuel
  induction fuel with
  | zero => intro c; simp [convergenceLoop, escalations]
  | succ n ih =>
    intro c
    by_cases h : env.is_tk_circuit c = true
    · simp [convergenceLoop, h, escalations]
    · cases ha : env.attempt c true <;>
        simp [convergenceLoop, h, ha, escalations, ih]

/-- A run of the loop starting with the precompile flag unset, as the
handler starts it on line 69, escalates at most once. -/
theorem escalations_from_start (env : TketEnv C) :
    ∀ fuel c, escalations (convergenceLoop env fuel c false).2 ≤ 1 := by
  intro fuel
  induction fuel with
  | zero => intro c; simp [convergenceLoop, escalations]
  | succ n ih =>
    intro c
    by_cases h : env.is_tk_circuit c = true
    · simp [convergenceLoop, h, escalations]
    · cases ha : env.attempt c false <;>
        simp [convergenceLoop, h, ha, escalations, ih, escalations_flag_set]

/-- Under the contract the spec states for the escalated state (a
precompiled attempt either reaches a native circuit or fails), a run
with the flag already set makes at most one attempt with the flag. -/
theorem preAttempts_flag_set (env : TketEnv C)
    (hok : ∀ a c', env.attempt a true = .ok c' → env.is_tk_circuit c' = true) :
    ∀ fuel c, preAttempts (convergenceLoop env fuel c true).2 ≤ 1 := by
  intro fuel
  induction fuel with
  | zero => intro c; simp [convergenceLoop, preAttempts]
  | succ n _ =>
    intro c
    by_cases h : env.is_tk_circuit c = true
    · simp [convergenceLoop, h, preAttempts]
    · cases ha : env.attempt c true with
      | ok c' =>
        have hn := trace_of_native env c' (hok c c' ha) n true
        simp [convergenceLoop, h, ha, preAttempts, hn]
      | unsupportedGate => simp [convergenceLoop, h, ha, preAttempts]
      | tooManyQubits => simp [convergenceLoop, h, ha, preAttempts]
      | otherError => simp [convergenceLoop, h, ha, preAttempts]

/-- Under the same contract, a whole run of the loop as the handler
starts it makes at most one attempt with the precompile flag set. -/
theorem preAttempts_from_start (env : TketEnv C)
    (hok : ∀ a c', env.attempt a true = .ok c' → env.is_tk_circuit c' = true) :
    ∀ fuel c, preAttempts (convergenceLoop env fuel c false).2 ≤ 1 := by
  intro fuel
  induction fuel with
  | zero => intro c; simp [convergenceLoop, preAttempts]
  | succ n ih =>
    intro c
    by_cases h : env.is_tk_circuit c = true
    · simp [convergenceLoop, h, preAttempts]
    · cases ha : env.attempt c false <;>
        simp [convergenceLoop, h, ha, preAttempts, ih, preAttempts_flag_set env hok]

/-- C1: the convergence loop escalates to precompilation at most once.
First conjunct: a run started as the handler starts it (flag unset,
routes.py line 69) emits at most one escalation event.  Second
conjunct: an unsupported-gate failure arriving with the flag already
set leaves the loop at once through the break of line 91, in the
unrecoverable `brokeOut` state, with that failing attempt as the whole
remaining trace.  Third conjunct: under the contract the spec gives the
escalated state (a precompiled attempt yields a native circuit when it
yields one at all), the run makes at most one attempt with the
precompile flag set, so precompilation is never attempted twice. -/
theorem C1_escalation_bounded (env : TketEnv C) (fuel : Nat) (c : C) :
    escalations (convergenceLoop env fuel c false).2 ≤ 1 ∧
    (∀ c', env.is_tk_circuit c' = false → env.attempt c' true = .unsupportedGate →
      convergenceLoop env (fuel + 1) c' true = (.brokeOut c', [.attempt c' true])) ∧
    ((∀ a c', env.attempt a true = .ok c' → env.is_tk_circuit c' = true) →
      preAttempts (convergenceLoop env fuel c false).2 ≤ 1) :=
  ⟨escalations_from_start env fuel c,
   fun c' h1 h2 => by simp [convergenceLoop, h1, h2],
   fun hok => preAttempts_from_start env hok fuel c⟩

/-- Witness for C1 at the concrete oracles `tketEnvC`: circuit 0 fails
without the flag and lowers to the native circuit 2 with it, while
circuit 1 fails even precompiled. -/
theorem C1_escalation_bounded_witness :
    escalations (convergenceLoop tketEnvC 9 0 false).2 ≤ 1 ∧
    convergenceLoop tketEnvC (9 + 1) 1 true = (.brokeOut 1, [.attempt 1 true]) ∧
    preAttempts (convergenceLoop tketEnvC 9 0 false).2 ≤ 1 := by
  obtain ⟨h1, h2, h3⟩ := C1_escalation_bounded tketEnvC 9 0
  refine ⟨h1, h2 1 (by decide) (by decide), h3 ?_⟩
  intro a c' hac
  simp only [tketEnvC] at hac ⊢
  unfold attemptC at hac
  by_cases ha : a = 1
  · simp [ha] at hac
  · simp [ha] at hac
    subst hac
    rfl

/-- C2 as stated is false of the code: under the oracles `tketEnvB`,
the first attempt lowers the loaded circuit 0 partially to circuit 1,
the second attempt fails on circuit 1 with an unsupported gate, and
the escalated attempt is then made on the partially lowered circuit 1,
not on the originally loaded circuit 0. -/
theorem C2_counterexample :
    ¬ ∀ i, (convergenceLoop tketEnvB 10 0 false).2.get? i = some Event.escalate →
      (convergenceLoop tketEnvB 10 0 false).2.get? (i + 1) =
        some (Event.attempt 0 true) := by
  intro hclaim
  have h := hclaim 2 (by decide)
  exact absurd h (by decide)

/-- C2 amended: when an unsupported-gate failure escalates, the retried
attempt starts from the current working circuit, the one that just
failed, which after a partially successful lowering pass is the
partially lowered circuit and not the originally loaded one; the
except branch of routes.py lines 80-88 does not reassign `circuit`
before the `continue`. -/
theorem C2_escalation_uses_current_circuit (env : TketEnv C) (fuel : Nat) (c : C)
    (h1 : env.is_tk_circuit c = false) (h2 : env.attempt c false = .unsupportedGate) :
    convergenceLoop env (fuel + 1) c false =
      ((convergenceLoop env fuel c true).1,
        .attempt c false :: .escalate :: (convergenceLoop env fuel c true).2) := by
  simp [convergenceLoop, h1, h2]

/-- Witness for the amended C2 at `tketEnvB`, on the partially lowered
circuit 1. -/
theorem C2_escalation_uses_current_circuit_witness :
    tketEnvB.is_tk_circuit 1 = false ∧
    tketEnvB.attempt 1 false = .unsupportedGate ∧
    convergenceLoop tketEnvB (8 + 1) 1 false =
      ((convergenceLoop tketEnvB 8 1 true).1,
        .attempt 1 false :: .escalate :: (convergenceLoop tketEnvB 8 1 true).2) :=
  ⟨by decide, by decide,
    C2_escalation_uses_current_circuit tketEnvB 8 1 (by decide) (by decide)⟩

/-- C3: a too-many-qubits failure is terminal and never retried.
First conjunct: whatever the loop state, an attempt that raises the
too-many-qubits failure ends the loop at once (routes.py line 96), the
remaining trace being exactly that failing attempt, with no escalation
and no further lowering attempt in response to it.  Second conjunct:
the handler then answers HTTP 200 with the fixed error body and no
depth or width metrics. -/
theorem C3_too_many_qubits_terminal (env : ServiceEnv C) (fuel : Nat)
    (req : TranspileRequest) (p s url : String) (c : C)
    (hc : check400 req = false) (hp : req.provider = some p) (hs : req.sdk = some s)
    (hu : req.impl_url = some url) (hr : regexMatchesImplUrl url = true)
    (hl : env.loadImpl = .ok c) (hb : env.backendFound = true) :
    (∀ (cur : C) (pre : Bool), env.is_tk_circuit cur = false →
      env.attempt cur pre = .tooManyQubits →
      convergenceLoop env.toTketEnv (fuel + 1) cur pre =
        (.tooManyQubits, [.attempt cur pre])) ∧
    ((convergenceLoop env.toTketEnv fuel c false).1 = .tooManyQubits →
      transpile env fuel req =
        (.ok200 (.errorMsg "too many qubits required"),
          .setupCredentials :: .loadImpl ::
            (convergenceLoop env.toTketEnv fuel c false).2)) := by
  constructor
  · intro cur pre h1 h2
    simp [convergenceLoop, h1, h2]
  · intro hout
    simp [transpile, hc, hp, hs, hu, hr, hl, hb, finishLoop, hout]

/-- Witness for C3 at the oracles `envTMQ`, whose every attempt fails
for lack of qubits. -/
theorem C3_too_many_qubits_terminal_witness :
    convergenceLoop envTMQ.toTketEnv (10 + 1) 0 false =
      (.tooManyQubits, [.attempt 0 false]) ∧
    transpile envTMQ 10 reqOk =
      (.ok200 (.errorMsg "too many qubits required"),
        .setupCredentials :: .loadImpl ::
          (convergenceLoop envTMQ.toTketEnv 10 0 false).2) := by
  obtain ⟨h1, h2⟩ := C3_too_many_qubits_terminal envTMQ 10 reqOk
    "ibmq" "pytket" "https://example.com/data/hadamard.py" 0
    (by decide) rfl rfl rfl (by decide) rfl rfl
  exact ⟨h1 0 false (by decide) (by decide), h2 (by decide)⟩

/-- C4: the final guard of routes.py lines 102-105.  When the loop
exits through its own guard (no exception, outcome `exited`) but the
backend validity predicate rejects the resulting circuit, the handler
aborts with HTTP 500 and returns no metrics. -/
theorem C4_final_guard (env : ServiceEnv C) (fuel : Nat)
    (req : TranspileRequest) (p s url : String) (c c' : C)
    (hc : check400 req = false) (hp : req.provider = some p) (hs : req.sdk = some s)
    (hu : req.impl_url = some url) (hr : regexMatchesImplUrl url = true)
    (hl : env.loadImpl = .ok c) (hb : env.backendFound = true)
    (hout : (convergenceLoop env.toTketEnv fuel c false).1 = .exited c')
    (hv : env.valid_circuit c' = false) :
    transpile env fuel req =
      (.serverError,
        .setupCredentials :: .loadImpl ::
          (convergenceLoop env.toTketEnv fuel c false).2) := by
  simp [transpile, hc, hp, hs, hu, hr, hl, hb, finishLoop, hout, hv]

/-- Witness for C4 at the oracles `envInvalid`: the loop converges to
circuit 3, which the backend validity predicate rejects. -/
theorem C4_final_guard_witness :
    transpile envInvalid 10 reqOk =
      (.serverError,
        .setupCredentials :: .loadImpl ::
          (convergenceLoop envInvalid.toTketEnv 10 0 false).2) :=
  C4_final_guard envInvalid 10 reqOk
    "ibmq" "pytket" "https://example.com/data/hadamard.py" 0 3
    (by decide) rfl rfl rfl (by decide) rfl rfl (by decide) rfl

/-- C5: the field guard of routes.py line 36 does not implement the
required-field rule the spec and the repository tests state.  First
and second conjuncts: a request that supplies the implementation
inline (impl-data with impl-language, provider, sdk and qpu-name, as
the repository test test_transpile_shor_santiago_file_pyquil sends it)
is rejected with HTTP 400, because the guard demands impl-url
unconditionally and the handler never reads impl-data.  Third and
fourth conjuncts: a request missing sdk or provider passes the guard
and instead raises an uncaught KeyError on line 41 or 40 (HTTP 500),
not the 400 the spec requires for missing required fields. -/
theorem C5_field_check_bug :
    transpile envA 10 reqData = (.badRequest, []) ∧
    check400 reqData = true ∧
    transpile envA 10 reqNoSdk = (.unhandledError "KeyError: sdk", []) ∧
    transpile envA 10 reqNoProvider = (.unhandledError "KeyError: provider", []) := by
  refine ⟨by decide, by decide, by decide, by decide⟩

/-- C6 as stated is false of the code: when the implementation loader
raises an exception, the handler does not answer HTTP 404; the except
branch of routes.py lines 58-60 answers HTTP 200 with the exception
text as the error field. -/
theorem C6_counterexample :
    transpile envRaise 10 reqOk =
      (.ok200 (.errorMsg "connection error"), [.setupCredentials, .loadImpl]) ∧
    (transpile envRaise 10 reqOk).1 ≠ .notFound := by
  constructor
  · decide
  · decide

/-- C6 amended: only an unresolvable backend yields HTTP 404 (routes.py
lines 65-67).  Implementation-loading failures yield HTTP 200 with an
error body instead: a raised exception through the except branch of
lines 58-60, and a falsy circuit through the abort(404) of line 56,
which sits inside the try block and is caught by that same except
branch as a werkzeug NotFound exception. -/
theorem C6_resolution_responses (env : ServiceEnv C) (fuel : Nat)
    (req : TranspileRequest) (p s url : String)
    (hc : check400 req = false) (hp : req.provider = some p) (hs : req.sdk = some s)
    (hu : req.impl_url = some url) (hr : regexMatchesImplUrl url = true) :
    (∀ msg, env.loadImpl = .raises msg →
      transpile env fuel req =
        (.ok200 (.errorMsg msg), [.setupCredentials, .loadImpl])) ∧
    (env.loadImpl = .noCircuit →
      transpile env fuel req =
        (.ok200 (.errorMsg notFoundErrorText), [.setupCredentials, .loadImpl])) ∧
    (∀ c, env.loadImpl = .ok c → env.backendFound = false →
      transpile env fuel req = (.notFound, [.setupCredentials, .loadImpl])) := by
  refine ⟨?_, ?_, ?_⟩
  · intro msg hl
    simp [transpile, hc, hp, hs, hu, hr, hl]
  · intro hl
    simp [transpile, hc, hp, hs, hu, hr, hl]
  · intro c hl hb
    simp [transpile, hc, hp, hs, hu, hr, hl, hb]

/-- Witness for the amended C6 at the three concrete collaborator
environments: a raising loader, a loader yielding no circuit, and an
unresolvable backend. -/
theorem C6_resolution_responses_witness :
    transpile envRaise 10 reqOk =
      (.ok200 (.errorMsg "connection error"), [.setupCredentials, .loadImpl]) ∧
    transpile envNoCircuit 10 reqOk =
      (.ok200 (.errorMsg notFoundErrorText), [.setupCredentials, .loadImpl]) ∧
    transpile envNoBackend 10 reqOk = (.notFound, [.setupCredentials, .loadImpl]) :=
  ⟨(C6_resolution_responses envRaise 10 reqOk
      "ibmq" "pytket" "https://example.com/data/hadamard.py"
      (by decide) rfl rfl rfl (by decide)).1 "connection error" rfl,
   (C6_resolution_responses envNoCircuit 10 reqOk
      "ibmq" "pytket" "https://example.com/data/hadamard.py"
      (by decide) rfl rfl rfl (by decide)).2.1 rfl,
   (C6_resolution_responses envNoBackend 10 reqOk
      "ibmq" "pytket" "https://example.com/data/hadamard.py"
      (by decide) rfl rfl rfl (by decide)).2.2 0 rfl rfl⟩

/-- C7: a well-formed execute request is answered synchronously with
HTTP 202 whose Location header and body Location field both name the
results resource of the fresh job id, and a Result record with
complete false and a null payload is created under that id, so that a
poll of the id before any worker activity answers with id and
complete false, the result field omitted. -/
theorem C7_execute_creates_incomplete (st : ExecState) (req : TranspileRequest)
    (shots : Nat) (newId p s url qpu : String)
    (hc : check400 req = false) (hp : req.provider = some p) (hs : req.sdk = some s)
    (hu : req.impl_url = some url) (hq : req.qpu_name = some qpu)
    (hfresh : findResult st.store newId = none) :
    (execute_circuit st req shots newId).1 =
      ⟨202, some (resultsPath newId), some (resultsPath newId)⟩ ∧
    findResult (execute_circuit st req shots newId).2.store newId =
      some ⟨newId, false, none⟩ ∧
    get_result (execute_circuit st req shots newId).2.store newId =
      .incompleteResp newId := by
  have hstore : (execute_circuit st req shots newId).2.store =
      st.store ++ [⟨newId, false, none⟩] := by
    simp [execute_circuit, hc, hp, hs, hu, hq]
  have hfind : findResult (execute_circuit st req shots newId).2.store newId =
      some ⟨newId, false, none⟩ := by
    rw [hstore]
    unfold findResult at hfresh ⊢
    rw [List.find?_append, hfresh]
    simp [List.find?]
  refine ⟨?_, hfind, ?_⟩
  · simp [execute_circuit, hc, hp, hs, hu, hq]
  · simp [get_result, hfind]

/-- Witness for C7: a well-formed request against the empty state under
the fresh id job1. -/
theorem C7_execute_creates_incomplete_witness :
    (execute_circuit ⟨[], []⟩ reqOk 1024 "job1").1 =
      ⟨202, some (resultsPath "job1"), some (resultsPath "job1")⟩ ∧
    findResult (execute_circuit ⟨[], []⟩ reqOk 1024 "job1").2.store "job1" =
      some ⟨"job1", false, none⟩ ∧
    get_result (execute_circuit ⟨[], []⟩ reqOk 1024 "job1").2.store "job1" =
      .incompleteResp "job1" :=
  C7_execute_creates_incomplete ⟨[], []⟩ reqOk 1024 "job1"
    "ibmq" "pytket" "https://example.com/data/hadamard.py" "ibmq_qasm_simulator"
    (by decide) rfl rfl rfl rfl rfl

/-- C8: polling mutates nothing and is idempotent.  The handler leaves
the Result table exactly as it found it, a repeated poll on the state
it leaves behind answers exactly as the first poll, and for a
completed record the answer is the fixed complete payload each time. -/
theorem C8_get_result_pure (store : List ResultRecord) (rid : String)
    (r : ResultRecord) (payload : String)
    (hfind : findResult store rid = some r) (hcomp : r.complete = true)
    (hpay : r.result = some payload) :
    (get_result_handler store rid).2 = store ∧
    get_result (get_result_handler store rid).2 rid = get_result store rid ∧
    get_result store rid = .completeResp r.id payload := by
  refine ⟨rfl, rfl, ?_⟩
  simp [get_result, hfind, hcomp, hpay]

/-- Witness for C8 on a one-record table holding a completed result. -/
theorem C8_get_result_pure_witness :
    (get_result_handler [⟨"1", true, some "shots"⟩] "1").2 =
      [⟨"1", true, some "shots"⟩] ∧
    get_result (get_result_handler [⟨"1", true, some "shots"⟩] "1").2 "1" =
      get_result [⟨"1", true, some "shots"⟩] "1" ∧
    get_result [⟨"1", true, some "shots"⟩] "1" = .completeResp "1" "shots" :=
  C8_get_result_pure [⟨"1", true, some "shots"⟩] "1" ⟨"1", true, some "shots"⟩
    "shots" (by decide) rfl rfl

/-- C9: polling an id with no Result record dereferences the None that
the primary-key lookup of routes.py line 145 returns: line 146 reads
`.complete` on None and raises an uncaught AttributeError, so the
endpoint answers HTTP 500 rather than any well-formed JSON body. -/
theorem C9_poll_missing_id_crashes (store : List ResultRecord) (rid : String)
    (h : findResult store rid = none) :
    get_result store rid =
      .unhandledErr "AttributeError: NoneType object has no attribute complete" := by
  simp [get_result, h]

/-- Witness for C9 on the empty Result table. -/
theorem C9_poll_missing_id_crashes_witness :
    get_result [] "no-such-job" =
      .unhandledErr "AttributeError: NoneType object has no attribute complete" :=
  C9_poll_missing_id_crashes [] "no-such-job" rfl

/-- C10 as stated is false of the code at the impl-url
https://example.com/data/code.pyc: no slash-separated segment of that
URL ends in ".py", yet the unanchored regex of routes.py line 46
matches its prefix ending after "code.py", so no error is raised and
the request runs through credential setup, loading and compilation to
a metrics response. -/
theorem C10_counterexample :
    hasSegmentEndingPy "https://example.com/data/code.pyc" = false ∧
    regexMatchesImplUrl "https://example.com/data/code.pyc" = true ∧
    transpile envA 10 reqPyc =
      (.ok200 (.metrics 1 1), [.setupCredentials, .loadImpl, .attempt 0 false]) := by
  refine ⟨by decide, by decide, by decide⟩

/-- C10 amended: for every impl-url in which no occurrence of ".py"
starts strictly after an occurrence of "/", the regex match of
routes.py line 46 fails and the `.group` call on None raises an
uncaught AttributeError (HTTP 500), before credential setup, before
the implementation is loaded and before any lowering attempt: the
event trace of the run is empty. -/
theorem C10_regex_guard (env : ServiceEnv C) (fuel : Nat)
    (req : TranspileRequest) (p s url : String)
    (hc : check400 req = false) (hp : req.provider = some p) (hs : req.sdk = some s)
    (hu : req.impl_url = some url) (hr : regexMatchesImplUrl url = false) :
    transpile env fuel req = (.unhandledError attrErrorText, []) := by
  simp [transpile, hc, hp, hs, hu, hr]

/-- Witness for the amended C10 at a slashless impl-url. -/
theorem C10_regex_guard_witness :
    transpile envA 10 reqNoSlash = (.unhandledError attrErrorText, []) :=
  C10_regex_guard envA 10 reqNoSlash "ibmq" "pytket" "hadamard.py"
    (by decide) rfl rfl rfl (by decide)

end PytketService
